import Mathlib

/-!
# ETWInterface.h: the callback-chaining registration shim

A shallow embedding of `src/EtwClrProfiler/ETWInterface.h`.

The header holds one global slot (`ETWClrProfiler_pCallBack`) and two functions
(`ETWClrProfiler_WrapperCallback`, `EventRegisterETWClrProfiler`).  Both functions
only read or write the slot and call other functions, so the embedding is explicit
state passing over a state that carries the slot and a log of the call instructions
executed, oldest first: `Call.McGenControlCallbackV2` is the direct call of line 42,
`Call.viaPointer` a call through a function pointer (line 45, or the runtime delivering
a control event), `Call.McGenEventRegister` the call of line 53.

A call through a pointer is logged and then the callee runs.  The wrapper is the only
possible callee whose body is in the sources: a call that reaches it runs lines 42-45
again.  With the wrapper's own address in the slot that re-entry does not end, so the
wrapper takes a fuel argument, the number of nested re-entries a run may make, and a run
that needs more ends in `Outcome.outOfFuel` with the log built so far.  The bodies of
`McGenControlCallbackV2` and of every other callee are outside the sources: a call to
one of them returns and leaves the slot as it is.  Execution is sequential: the two
reads of the slot on lines 44 and 45 see the same value.

Pointers are symbolic: the three objects whose address the header takes are
constructors of `Ptr`, every other object is `Ptr.addr a`.  Integer parameters are
forwarded without arithmetic, so they are natural numbers.
-/

namespace EtwClrProfiler

/-- Data pointers (`LPCGUID`, `PEVENT_FILTER_DESCRIPTOR`, `PVOID`, `PREGHANDLE`). -/
inductive Ptr where
  | null
  | ETWClrProfiler
  | ETWClrProfiler_Context
  | ETWClrProfilerHandle
  | addr (a : Nat)
deriving DecidableEq, Repr

/-- Function pointers of type `PENABLECALLBACK`: `NULL`, the address of the header's own
wrapper, the address of the generated `McGenControlCallbackV2`, or the address of some
other function. -/
inductive FnPtr where
  | null
  | ETWClrProfiler_WrapperCallback
  | McGenControlCallbackV2
  | fn (id : Nat)
deriving DecidableEq, Repr

abbrev PENABLECALLBACK := FnPtr

/-- Status codes (`HRESULT`). -/
abbrev HRESULT := Int

/-- The argument list of one `PENABLECALLBACK` call, in parameter order. -/
structure ControlArgs where
  SourceId : Ptr
  IsEnabled : Nat
  Level : Nat
  MatchAnyKeywords : Nat
  MatchAllKeywords : Nat
  FilterData : Ptr
  CallbackContext : Ptr
deriving DecidableEq, Repr

/-- One executed call instruction. -/
inductive Call where
  | McGenControlCallbackV2 (args : ControlArgs)
  | viaPointer (target : FnPtr) (args : ControlArgs)
  | McGenEventRegister (ProviderId : Ptr) (EnableCallback : FnPtr)
      (CallbackContext : Ptr) (RegHandle : Ptr)
deriving DecidableEq, Repr

/-- What the tracing runtime keeps of a registration. -/
structure Registration where
  EnableCallback : FnPtr
  CallbackContext : Ptr
deriving DecidableEq, Repr

/-- Program state: the global slot of line 28, the runtime's registration record and
the log of calls. -/
structure State where
  ETWClrProfiler_pCallBack : PENABLECALLBACK
  registration : Option Registration
  calls : List Call
deriving DecidableEq, Repr

/-- A zero-initialised global slot, nothing registered, nothing called. -/
def State.initial : State :=
  { ETWClrProfiler_pCallBack := FnPtr.null, registration := none, calls := [] }

/-- How a run ends: it returns, it faults (a call through `NULL`), or it needs more
nested re-entries of the wrapper than the fuel allows. -/
inductive Outcome where
  | returned (s : State)
  | fault
  | outOfFuel (s : State)
deriving DecidableEq, Repr

/-- The state a run has reached, whether it returned or ran out of fuel. -/
def Outcome.reached : Outcome → Option State
  | Outcome.returned s => some s
  | Outcome.fault => none
  | Outcome.outOfFuel s => some s

/-- What running a function of type `PENABLECALLBACK` does: seven arguments, then the
state. -/
abbrev Callee :=
  Ptr → Nat → Nat → Nat → Nat → Ptr → Ptr → State → Outcome

/-- Modelled from the spec: `McGenControlCallbackV2` is defined in the generated header
`ETWClrProfiler.h`, which is not part of the sources.  The spec names it the tracing
runtime's own control callback; the direct call to it is logged with the arguments it
receives.  The generated header is included before the slot is declared, so its code
cannot name the slot. -/
def McGenControlCallbackV2 (SourceId : Ptr) (IsEnabled Level MatchAnyKeywords
    MatchAllKeywords : Nat) (FilterData CallbackContext : Ptr) (s : State) : State :=
  { s with calls := s.calls ++ [Call.McGenControlCallbackV2
      ⟨SourceId, IsEnabled, Level, MatchAnyKeywords, MatchAllKeywords, FilterData,
        CallbackContext⟩] }

/-- A call through a function pointer.  Calling through `NULL` is a fault.  Any other
call is logged with its target and arguments; then the callee runs: `wrapper` when the
target is the header's wrapper, while `McGenControlCallbackV2` and the functions `fn id`
are defined outside the sources and return. -/
def callThrough (wrapper : Callee) (fp : FnPtr) (SourceId : Ptr)
    (IsEnabled Level MatchAnyKeywords MatchAllKeywords : Nat)
    (FilterData CallbackContext : Ptr) (s : State) : Outcome :=
  let s1 : State := { s with calls := s.calls ++ [Call.viaPointer fp
      ⟨SourceId, IsEnabled, Level, MatchAnyKeywords, MatchAllKeywords, FilterData,
        CallbackContext⟩] }
  match fp with
  | FnPtr.null => Outcome.fault
  | FnPtr.ETWClrProfiler_WrapperCallback =>
    wrapper SourceId IsEnabled Level MatchAnyKeywords MatchAllKeywords FilterData
      CallbackContext s1
  | FnPtr.McGenControlCallbackV2 => Outcome.returned s1
  | FnPtr.fn _ => Outcome.returned s1

/-- Lines 32-46 of `ETWInterface.h`.  The first argument is the fuel: a call through the
slot that reaches the wrapper itself runs the wrapper with one unit less, and ends the
run in `Outcome.outOfFuel` when none is left. -/
def ETWClrProfiler_WrapperCallback : Nat → Callee
  | fuel, SourceId, IsEnabled, Level, MatchAnyKeywords, MatchAllKeywords, FilterData,
      CallbackContext, s =>
    let s1 := McGenControlCallbackV2 SourceId IsEnabled Level MatchAnyKeywords
      MatchAllKeywords FilterData Ptr.ETWClrProfiler_Context s
    if s1.ETWClrProfiler_pCallBack ≠ FnPtr.null then
      callThrough
        (match fuel with
          | 0 => fun _ _ _ _ _ _ _ t => Outcome.outOfFuel t
          | n + 1 => ETWClrProfiler_WrapperCallback n)
        s1.ETWClrProfiler_pCallBack SourceId IsEnabled Level MatchAnyKeywords
        MatchAllKeywords FilterData CallbackContext s1
    else
      Outcome.returned s1

/-- The status the underlying registration call returns, as the runtime decides it from
the four arguments of the call and the state at the call. -/
abbrev RegisterStatus := Ptr → FnPtr → Ptr → Ptr → State → HRESULT

/-- Modelled from the spec: `McGenEventRegister` is defined in the generated header
`ETWClrProfiler.h`, which is not part of the sources.  It is the underlying registration
call: the runtime stores the callback and the context it is given, and the call returns
a status code, here whatever `rt` answers for this call. -/
def McGenEventRegister (rt : RegisterStatus) (ProviderId : Ptr) (EnableCallback : FnPtr)
    (CallbackContext : Ptr) (RegHandle : Ptr) (s : State) : HRESULT × State :=
  (rt ProviderId EnableCallback CallbackContext RegHandle s,
    { s with
      registration := some ⟨EnableCallback, CallbackContext⟩
      calls := s.calls ++
        [Call.McGenEventRegister ProviderId EnableCallback CallbackContext RegHandle] })

/-- Lines 49-54 of `ETWInterface.h`. -/
def EventRegisterETWClrProfiler (rt : RegisterStatus) (callback : PENABLECALLBACK)
    (callBackContext : Ptr) (s : State) : HRESULT × State :=
  let s1 : State := { s with ETWClrProfiler_pCallBack := callback }
  McGenEventRegister rt Ptr.ETWClrProfiler FnPtr.ETWClrProfiler_WrapperCallback
    callBackContext Ptr.ETWClrProfilerHandle s1

/-- The six parameters of one control event (enable, disable, level or keyword change);
the runtime supplies the seventh, the context, from the registration. -/
structure ControlEvent where
  SourceId : Ptr
  IsEnabled : Nat
  Level : Nat
  MatchAnyKeywords : Nat
  MatchAllKeywords : Nat
  FilterData : Ptr
deriving DecidableEq, Repr

/-- Modelled from the spec: the tracing runtime is outside the sources.  It delivers a
control event by calling the callback stored at registration with the context stored at
registration; that call is a call through a function pointer like any other. -/
def controlEvent (fuel : Nat) (e : ControlEvent) (s : State) : Outcome :=
  match s.registration with
  | none => Outcome.returned s
  | some r =>
    callThrough (ETWClrProfiler_WrapperCallback fuel) r.EnableCallback e.SourceId
      e.IsEnabled e.Level e.MatchAnyKeywords e.MatchAllKeywords e.FilterData
      r.CallbackContext s

/-- Delivery of a sequence of control events, in order: the next event is delivered
when the one before has returned. -/
def controlEvents (fuel : Nat) : List ControlEvent → State → Outcome
  | [], s => Outcome.returned s
  | e :: es, s =>
    match controlEvent fuel e s with
    | Outcome.returned s1 => controlEvents fuel es s1
    | Outcome.fault => Outcome.fault
    | Outcome.outOfFuel s1 => Outcome.outOfFuel s1

/-- One registration request: the callback and the context. -/
structure Request where
  callback : PENABLECALLBACK
  callBackContext : Ptr
deriving DecidableEq, Repr

/-- A sequence of `EventRegisterETWClrProfiler` calls, in order. -/
def registerAll (rt : RegisterStatus) : List Request → State → State
  | [], s => s
  | r :: rs, s =>
    registerAll rt rs (EventRegisterETWClrProfiler rt r.callback r.callBackContext s).2

/-- The list `cs` repeated `n` times. -/
def repeatCalls : Nat → List Call → List Call
  | 0, _ => []
  | n + 1, cs => cs ++ repeatCalls n cs

/-- How many times lines 42-45 run in one invocation of the wrapper with `cb` in the
slot and the given fuel: once, except that the wrapper's own address in the slot
re-enters them at every level the fuel allows. -/
def runs (fuel : Nat) (cb : FnPtr) : Nat :=
  if cb = FnPtr.ETWClrProfiler_WrapperCallback then fuel + 1 else 1

/-- The calls one control event is expected to cause once `cb` (not `NULL`) is
registered with context `ctx`: the runtime calls the wrapper, the wrapper calls
`McGenControlCallbackV2` and then `cb`; when `cb` is the wrapper itself, the last two
calls repeat once per unit of fuel. -/
def chained (fuel : Nat) (cb : FnPtr) (ctx : Ptr) (e : ControlEvent) : List Call :=
  Call.viaPointer FnPtr.ETWClrProfiler_WrapperCallback ⟨e.SourceId, e.IsEnabled, e.Level,
      e.MatchAnyKeywords, e.MatchAllKeywords, e.FilterData, ctx⟩ ::
  Call.McGenControlCallbackV2 ⟨e.SourceId, e.IsEnabled, e.Level, e.MatchAnyKeywords,
      e.MatchAllKeywords, e.FilterData, Ptr.ETWClrProfiler_Context⟩ ::
  Call.viaPointer cb ⟨e.SourceId, e.IsEnabled, e.Level, e.MatchAnyKeywords,
      e.MatchAllKeywords, e.FilterData, ctx⟩ ::
  (if cb = FnPtr.ETWClrProfiler_WrapperCallback then
    repeatCalls fuel
      [Call.McGenControlCallbackV2 ⟨e.SourceId, e.IsEnabled, e.Level, e.MatchAnyKeywords,
          e.MatchAllKeywords, e.FilterData, Ptr.ETWClrProfiler_Context⟩,
       Call.viaPointer cb ⟨e.SourceId, e.IsEnabled, e.Level, e.MatchAnyKeywords,
          e.MatchAllKeywords, e.FilterData, ctx⟩]
   else [])

/-- The expected log of a sequence of control events that all return. -/
def chainedAll (fuel : Nat) (cb : FnPtr) (ctx : Ptr) : List ControlEvent → List Call
  | [] => []
  | e :: es => chained fuel cb ctx e ++ chainedAll fuel cb ctx es

/-- The argument lists of the direct calls to `McGenControlCallbackV2` (line 42) in a
log. -/
def internalArgs : List Call → List ControlArgs
  | [] => []
  | Call.McGenControlCallbackV2 a :: cs => a :: internalArgs cs
  | _ :: cs => internalArgs cs

/-- The argument lists of the calls made through a function pointer in a log. -/
def pointerArgs : List Call → List ControlArgs
  | [] => []
  | Call.viaPointer _ a :: cs => a :: pointerArgs cs
  | _ :: cs => pointerArgs cs

/-- The calls a run appends to the log, the suffix after the calls already there, whether
the run returned or ran out of fuel; `none` when it faults. -/
def newCalls (before : State) (after : Outcome) : Option (List Call) :=
  after.reached.map (fun t => t.calls.drop before.calls.length)

/-- The argument lists a run hands to `McGenControlCallbackV2` by direct calls. -/
def sentInternal (before : State) (after : Outcome) : Option (List ControlArgs) :=
  (newCalls before after).map internalArgs

/-- The argument lists a run hands to callees reached through a function pointer. -/
def sentPointer (before : State) (after : Outcome) : Option (List ControlArgs) :=
  (newCalls before after).map pointerArgs

/-! ## Shared lemmas -/

theorem wrapper_eq (fuel : Nat) (SourceId : Ptr) (IsEnabled Level MatchAnyKeywords
    MatchAllKeywords : Nat) (FilterData CallbackContext : Ptr) (s : State) :
    ETWClrProfiler_WrapperCallback fuel SourceId IsEnabled Level MatchAnyKeywords
        MatchAllKeywords FilterData CallbackContext s =
      (if s.ETWClrProfiler_pCallBack = FnPtr.ETWClrProfiler_WrapperCallback
        then Outcome.outOfFuel else Outcome.returned)
      { s with calls := s.calls ++
        Call.McGenControlCallbackV2 ⟨SourceId, IsEnabled, Level, MatchAnyKeywords,
            MatchAllKeywords, FilterData, Ptr.ETWClrProfiler_Context⟩ ::
          (if s.ETWClrProfiler_pCallBack = FnPtr.null then []
           else Call.viaPointer s.ETWClrProfiler_pCallBack
              ⟨SourceId, IsEnabled, Level, MatchAnyKeywords, MatchAllKeywords,
                FilterData, CallbackContext⟩ ::
             (if s.ETWClrProfiler_pCallBack = FnPtr.ETWClrProfiler_WrapperCallback then
                repeatCalls fuel
                  [Call.McGenControlCallbackV2 ⟨SourceId, IsEnabled, Level,
                      MatchAnyKeywords, MatchAllKeywords, FilterData,
                      Ptr.ETWClrProfiler_Context⟩,
                   Call.viaPointer s.ETWClrProfiler_pCallBack
                    ⟨SourceId, IsEnabled, Level, MatchAnyKeywords, MatchAllKeywords,
                      FilterData, CallbackContext⟩]
              else [])) } := by
  induction fuel generalizing s with
  | zero =>
    obtain ⟨slot, reg, calls⟩ := s
    cases slot <;>
      simp [ETWClrProfiler_WrapperCallback, McGenControlCallbackV2, callThrough,
        repeatCalls]
  | succ n ih =>
    obtain ⟨slot, reg, calls⟩ := s
    cases slot <;>
      simp [ETWClrProfiler_WrapperCallback, McGenControlCallbackV2, callThrough,
        repeatCalls, ih]

theorem internalArgs_repeatCalls (n : Nat) (t : FnPtr) (a b : ControlArgs) :
    internalArgs (repeatCalls n [Call.McGenControlCallbackV2 a, Call.viaPointer t b]) =
      List.replicate n a := by
  induction n with
  | zero => rfl
  | succ n ih => simp [repeatCalls, internalArgs, ih, List.replicate_succ]

theorem pointerArgs_repeatCalls (n : Nat) (t : FnPtr) (a b : ControlArgs) :
    pointerArgs (repeatCalls n [Call.McGenControlCallbackV2 a, Call.viaPointer t b]) =
      List.replicate n b := by
  induction n with
  | zero => rfl
  | succ n ih => simp [repeatCalls, pointerArgs, ih, List.replicate_succ]

theorem newCalls_wrapper (fuel : Nat) (SourceId : Ptr) (IsEnabled Level MatchAnyKeywords
    MatchAllKeywords : Nat) (FilterData CallbackContext : Ptr) (s : State) :
    newCalls s (ETWClrProfiler_WrapperCallback fuel SourceId IsEnabled Level
        MatchAnyKeywords MatchAllKeywords FilterData CallbackContext s) =
      some (Call.McGenControlCallbackV2 ⟨SourceId, IsEnabled, Level, MatchAnyKeywords,
            MatchAllKeywords, FilterData, Ptr.ETWClrProfiler_Context⟩ ::
          (if s.ETWClrProfiler_pCallBack = FnPtr.null then []
           else Call.viaPointer s.ETWClrProfiler_pCallBack
              ⟨SourceId, IsEnabled, Level, MatchAnyKeywords, MatchAllKeywords,
                FilterData, CallbackContext⟩ ::
             (if s.ETWClrProfiler_pCallBack = FnPtr.ETWClrProfiler_WrapperCallback then
                repeatCalls fuel
                  [Call.McGenControlCallbackV2 ⟨SourceId, IsEnabled, Level,
                      MatchAnyKeywords, MatchAllKeywords, FilterData,
                      Ptr.ETWClrProfiler_Context⟩,
                   Call.viaPointer s.ETWClrProfiler_pCallBack
                    ⟨SourceId, IsEnabled, Level, MatchAnyKeywords, MatchAllKeywords,
                      FilterData, CallbackContext⟩]
              else []))) := by
  rw [wrapper_eq]
  by_cases h : s.ETWClrProfiler_pCallBack = FnPtr.ETWClrProfiler_WrapperCallback <;>
    simp [newCalls, Outcome.reached, h]

theorem sentInternal_wrapper (fuel : Nat) (SourceId : Ptr) (IsEnabled Level
    MatchAnyKeywords MatchAllKeywords : Nat) (FilterData CallbackContext : Ptr)
    (s : State) :
    sentInternal s (ETWClrProfiler_WrapperCallback fuel SourceId IsEnabled Level
        MatchAnyKeywords MatchAllKeywords FilterData CallbackContext s) =
      some (List.replicate (runs fuel s.ETWClrProfiler_pCallBack)
        ⟨SourceId, IsEnabled, Level, MatchAnyKeywords, MatchAllKeywords, FilterData,
          Ptr.ETWClrProfiler_Context⟩) := by
  obtain ⟨slot, reg, calls⟩ := s
  cases slot <;>
    simp [sentInternal, newCalls_wrapper, internalArgs, internalArgs_repeatCalls, runs,
      List.replicate_succ]

theorem sentPointer_wrapper (fuel : Nat) (SourceId : Ptr) (IsEnabled Level
    MatchAnyKeywords MatchAllKeywords : Nat) (FilterData CallbackContext : Ptr)
    (s : State) :
    sentPointer s (ETWClrProfiler_WrapperCallback fuel SourceId IsEnabled Level
        MatchAnyKeywords MatchAllKeywords FilterData CallbackContext s) =
      some (if s.ETWClrProfiler_pCallBack = FnPtr.null then []
        else List.replicate (runs fuel s.ETWClrProfiler_pCallBack)
          ⟨SourceId, IsEnabled, Level, MatchAnyKeywords, MatchAllKeywords, FilterData,
            CallbackContext⟩) := by
  obtain ⟨slot, reg, calls⟩ := s
  cases slot <;>
    simp [sentPointer, newCalls_wrapper, pointerArgs, pointerArgs_repeatCalls, runs,
      List.replicate_succ]

theorem register_eq (rt : RegisterStatus) (callback : PENABLECALLBACK)
    (callBackContext : Ptr) (s : State) :
    EventRegisterETWClrProfiler rt callback callBackContext s =
      (rt Ptr.ETWClrProfiler FnPtr.ETWClrProfiler_WrapperCallback callBackContext
          Ptr.ETWClrProfilerHandle { s with ETWClrProfiler_pCallBack := callback },
        { ETWClrProfiler_pCallBack := callback
          registration := some ⟨FnPtr.ETWClrProfiler_WrapperCallback, callBackContext⟩
          calls := s.calls ++ [Call.McGenEventRegister Ptr.ETWClrProfiler
            FnPtr.ETWClrProfiler_WrapperCallback callBackContext
            Ptr.ETWClrProfilerHandle] }) := by
  rfl

theorem registerAll_append (rt : RegisterStatus) (xs ys : List Request) (s : State) :
    registerAll rt (xs ++ ys) s = registerAll rt ys (registerAll rt xs s) := by
  induction xs generalizing s with
  | nil => rfl
  | cons x xs ih => simp [registerAll, ih]

theorem controlEvent_eq (fuel : Nat) (cb : FnPtr) (hcb : cb ≠ FnPtr.null) (ctx : Ptr)
    (e : ControlEvent) (s : State) (hslot : s.ETWClrProfiler_pCallBack = cb)
    (hreg : s.registration = some ⟨FnPtr.ETWClrProfiler_WrapperCallback, ctx⟩) :
    controlEvent fuel e s =
      (if cb = FnPtr.ETWClrProfiler_WrapperCallback
        then Outcome.outOfFuel else Outcome.returned)
      { s with calls := s.calls ++ chained fuel cb ctx e } := by
  obtain ⟨slot, reg, calls⟩ := s
  subst hslot
  simp only at hreg
  subst hreg
  simp only [controlEvent, callThrough, wrapper_eq]
  cases slot <;> simp [chained] at hcb ⊢

theorem controlEvents_chained (fuel : Nat) (cb : FnPtr) (hcb : cb ≠ FnPtr.null)
    (hw : cb ≠ FnPtr.ETWClrProfiler_WrapperCallback) (ctx : Ptr)
    (evs : List ControlEvent) (s : State) (hslot : s.ETWClrProfiler_pCallBack = cb)
    (hreg : s.registration = some ⟨FnPtr.ETWClrProfiler_WrapperCallback, ctx⟩) :
    controlEvents fuel evs s =
      Outcome.returned { s with calls := s.calls ++ chainedAll fuel cb ctx evs } := by
  induction evs generalizing s with
  | nil => simp [controlEvents, chainedAll]
  | cons e es ih =>
    have h1 := controlEvent_eq fuel cb hcb ctx e s hslot hreg
    simp only [hw, if_false] at h1
    simp only [controlEvents, h1]
    rw [ih { s with calls := s.calls ++ chained fuel cb ctx e } hslot hreg]
    simp [chainedAll, List.append_assoc]

/-! ## The wrapper callback -/

/-- C2: when the slot is `NULL`, one invocation of the wrapper returns (no fault, for
every fuel), appends exactly one call to the log, the call to `McGenControlCallbackV2`,
and makes no call through a function pointer. -/
theorem wrapper_null_slot_internal_only (fuel : Nat) (SourceId : Ptr) (IsEnabled Level
    MatchAnyKeywords MatchAllKeywords : Nat) (FilterData CallbackContext : Ptr)
    (s : State) (h : s.ETWClrProfiler_pCallBack = FnPtr.null) :
    ETWClrProfiler_WrapperCallback fuel SourceId IsEnabled Level MatchAnyKeywords
        MatchAllKeywords FilterData CallbackContext s =
      Outcome.returned { s with calls := s.calls ++
        [Call.McGenControlCallbackV2 ⟨SourceId, IsEnabled, Level, MatchAnyKeywords,
            MatchAllKeywords, FilterData, Ptr.ETWClrProfiler_Context⟩] } ∧
    sentPointer s (ETWClrProfiler_WrapperCallback fuel SourceId IsEnabled Level
        MatchAnyKeywords MatchAllKeywords FilterData CallbackContext s) = some [] := by
  constructor
  · rw [wrapper_eq]
    simp [h]
  · rw [sentPointer_wrapper]
    simp [h]

theorem wrapper_null_slot_internal_only_witness :
    State.initial.ETWClrProfiler_pCallBack = FnPtr.null ∧
    ETWClrProfiler_WrapperCallback 0 (Ptr.addr 1) 1 4 255 0 Ptr.null (Ptr.addr 9)
        State.initial =
      Outcome.returned ⟨FnPtr.null, none,
        [Call.McGenControlCallbackV2
            ⟨Ptr.addr 1, 1, 4, 255, 0, Ptr.null, Ptr.ETWClrProfiler_Context⟩]⟩ ∧
    sentPointer State.initial (ETWClrProfiler_WrapperCallback 0 (Ptr.addr 1) 1 4 255 0
        Ptr.null (Ptr.addr 9) State.initial) = some [] :=
  ⟨rfl,
    wrapper_null_slot_internal_only 0 (Ptr.addr 1) 1 4 255 0 Ptr.null (Ptr.addr 9)
      State.initial rfl⟩

/-- C3, as stated, fails: with callback `fn 7` in the slot and received context
`addr 9`, the argument list handed to `McGenControlCallbackV2` ends in
`&ETWClrProfiler_Context`, so it differs both from the list handed to the user
callback and from the list the wrapper received. -/
theorem internal_arguments_differ_at_context :
    sentInternal ⟨FnPtr.fn 7, none, []⟩
        (ETWClrProfiler_WrapperCallback 0 (Ptr.addr 1) 1 4 255 0 Ptr.null (Ptr.addr 9)
          ⟨FnPtr.fn 7, none, []⟩) =
      some [⟨Ptr.addr 1, 1, 4, 255, 0, Ptr.null, Ptr.ETWClrProfiler_Context⟩] ∧
    sentPointer ⟨FnPtr.fn 7, none, []⟩
        (ETWClrProfiler_WrapperCallback 0 (Ptr.addr 1) 1 4 255 0 Ptr.null (Ptr.addr 9)
          ⟨FnPtr.fn 7, none, []⟩) =
      some [⟨Ptr.addr 1, 1, 4, 255, 0, Ptr.null, Ptr.addr 9⟩] ∧
    ¬ (sentInternal ⟨FnPtr.fn 7, none, []⟩
        (ETWClrProfiler_WrapperCallback 0 (Ptr.addr 1) 1 4 255 0 Ptr.null (Ptr.addr 9)
          ⟨FnPtr.fn 7, none, []⟩) =
      sentPointer ⟨FnPtr.fn 7, none, []⟩
        (ETWClrProfiler_WrapperCallback 0 (Ptr.addr 1) 1 4 255 0 Ptr.null (Ptr.addr 9)
          ⟨FnPtr.fn 7, none, []⟩)) ∧
    ¬ (sentInternal ⟨FnPtr.fn 7, none, []⟩
        (ETWClrProfiler_WrapperCallback 0 (Ptr.addr 1) 1 4 255 0 Ptr.null (Ptr.addr 9)
          ⟨FnPtr.fn 7, none, []⟩) =
      some [⟨Ptr.addr 1, 1, 4, 255, 0, Ptr.null, Ptr.addr 9⟩]) := by
  decide

/-- C3, amended: when the slot holds a non-null callback, every direct call to
`McGenControlCallbackV2` the invocation makes carries one argument list `a` and every
call through the slot carries one argument list `b`, as many of the one as of the other
(`runs`: one each, unless the slot holds the wrapper's own address); source id, enabled
flag, level, both keyword masks and filter data of `a` and of `b` are the received
values; `b` is the whole received list, context included; the context in `a` is
`&ETWClrProfiler_Context`. -/
theorem wrapper_forwards_six_to_both (fuel : Nat) (SourceId : Ptr) (IsEnabled Level
    MatchAnyKeywords MatchAllKeywords : Nat) (FilterData CallbackContext : Ptr)
    (s : State) (h : s.ETWClrProfiler_pCallBack ≠ FnPtr.null) :
    ∃ a b : ControlArgs,
      sentInternal s (ETWClrProfiler_WrapperCallback fuel SourceId IsEnabled Level
          MatchAnyKeywords MatchAllKeywords FilterData CallbackContext s) =
        some (List.replicate (runs fuel s.ETWClrProfiler_pCallBack) a) ∧
      sentPointer s (ETWClrProfiler_WrapperCallback fuel SourceId IsEnabled Level
          MatchAnyKeywords MatchAllKeywords FilterData CallbackContext s) =
        some (List.replicate (runs fuel s.ETWClrProfiler_pCallBack) b) ∧
      0 < runs fuel s.ETWClrProfiler_pCallBack ∧
      (a.SourceId = SourceId ∧ a.IsEnabled = IsEnabled ∧ a.Level = Level ∧
        a.MatchAnyKeywords = MatchAnyKeywords ∧ a.MatchAllKeywords = MatchAllKeywords ∧
        a.FilterData = FilterData) ∧
      (b.SourceId = SourceId ∧ b.IsEnabled = IsEnabled ∧ b.Level = Level ∧
        b.MatchAnyKeywords = MatchAnyKeywords ∧ b.MatchAllKeywords = MatchAllKeywords ∧
        b.FilterData = FilterData) ∧
      b.CallbackContext = CallbackContext ∧
      a.CallbackContext = Ptr.ETWClrProfiler_Context := by
  refine ⟨⟨SourceId, IsEnabled, Level, MatchAnyKeywords, MatchAllKeywords, FilterData,
      Ptr.ETWClrProfiler_Context⟩,
    ⟨SourceId, IsEnabled, Level, MatchAnyKeywords, MatchAllKeywords, FilterData,
      CallbackContext⟩, ?_, ?_, ?_, ?_, ?_, rfl, rfl⟩
  · exact sentInternal_wrapper _ _ _ _ _ _ _ _ _
  · rw [sentPointer_wrapper]
    simp [h]
  · unfold runs
    split <;> omega
  · exact ⟨rfl, rfl, rfl, rfl, rfl, rfl⟩
  · exact ⟨rfl, rfl, rfl, rfl, rfl, rfl⟩

theorem wrapper_forwards_six_to_both_witness :
    (⟨FnPtr.fn 7, none, []⟩ : State).ETWClrProfiler_pCallBack ≠ FnPtr.null ∧
    ∃ a b : ControlArgs,
      sentInternal ⟨FnPtr.fn 7, none, []⟩ (ETWClrProfiler_WrapperCallback 0 (Ptr.addr 1)
          1 4 255 0 Ptr.null (Ptr.addr 9) ⟨FnPtr.fn 7, none, []⟩) =
        some (List.replicate 1 a) ∧
      sentPointer ⟨FnPtr.fn 7, none, []⟩ (ETWClrProfiler_WrapperCallback 0 (Ptr.addr 1)
          1 4 255 0 Ptr.null (Ptr.addr 9) ⟨FnPtr.fn 7, none, []⟩) =
        some (List.replicate 1 b) ∧
      0 < 1 ∧
      (a.SourceId = Ptr.addr 1 ∧ a.IsEnabled = 1 ∧ a.Level = 4 ∧
        a.MatchAnyKeywords = 255 ∧ a.MatchAllKeywords = 0 ∧
        a.FilterData = Ptr.null) ∧
      (b.SourceId = Ptr.addr 1 ∧ b.IsEnabled = 1 ∧ b.Level = 4 ∧
        b.MatchAnyKeywords = 255 ∧ b.MatchAllKeywords = 0 ∧
        b.FilterData = Ptr.null) ∧
      b.CallbackContext = Ptr.addr 9 ∧
      a.CallbackContext = Ptr.ETWClrProfiler_Context :=
  ⟨by decide,
    wrapper_forwards_six_to_both 0 (Ptr.addr 1) 1 4 255 0 Ptr.null (Ptr.addr 9)
      ⟨FnPtr.fn 7, none, []⟩ (by decide)⟩

/-- C8: every direct call to `McGenControlCallbackV2` the wrapper makes carries the six
received control parameters followed by `&ETWClrProfiler_Context`, whatever context the
wrapper received; every call through a non-null slot carries all seven received values;
with a null slot no call through the slot is made.  There are `runs` calls of each kind
(one, unless the slot holds the wrapper's own address).  The contexts handed over by the
two kinds of call coincide exactly when a call through the slot is made and the received
context is itself `&ETWClrProfiler_Context`. -/
theorem wrapper_internal_context_is_global (fuel : Nat) (SourceId : Ptr) (IsEnabled Level
    MatchAnyKeywords MatchAllKeywords : Nat) (FilterData CallbackContext : Ptr)
    (s : State) :
    sentInternal s (ETWClrProfiler_WrapperCallback fuel SourceId IsEnabled Level
        MatchAnyKeywords MatchAllKeywords FilterData CallbackContext s) =
      some (List.replicate (runs fuel s.ETWClrProfiler_pCallBack)
        ⟨SourceId, IsEnabled, Level, MatchAnyKeywords, MatchAllKeywords, FilterData,
          Ptr.ETWClrProfiler_Context⟩) ∧
    sentPointer s (ETWClrProfiler_WrapperCallback fuel SourceId IsEnabled Level
        MatchAnyKeywords MatchAllKeywords FilterData CallbackContext s) =
      some (if s.ETWClrProfiler_pCallBack = FnPtr.null then []
        else List.replicate (runs fuel s.ETWClrProfiler_pCallBack)
          ⟨SourceId, IsEnabled, Level, MatchAnyKeywords, MatchAllKeywords, FilterData,
            CallbackContext⟩) ∧
    ((sentInternal s (ETWClrProfiler_WrapperCallback fuel SourceId IsEnabled Level
          MatchAnyKeywords MatchAllKeywords FilterData CallbackContext s)).map
        (List.map ControlArgs.CallbackContext) =
      (sentPointer s (ETWClrProfiler_WrapperCallback fuel SourceId IsEnabled Level
          MatchAnyKeywords MatchAllKeywords FilterData CallbackContext s)).map
        (List.map ControlArgs.CallbackContext) ↔
      s.ETWClrProfiler_pCallBack ≠ FnPtr.null ∧
        CallbackContext = Ptr.ETWClrProfiler_Context) := by
  refine ⟨sentInternal_wrapper _ _ _ _ _ _ _ _ _, sentPointer_wrapper _ _ _ _ _ _ _ _ _,
    ?_⟩
  rw [sentInternal_wrapper, sentPointer_wrapper]
  obtain ⟨slot, reg, calls⟩ := s
  cases slot <;> simp [runs, List.replicate_succ, eq_comm]
  exact fun hc => Or.inr hc

/-! ## The registration function -/

/-- C4: `EventRegisterETWClrProfiler` returns the status of its `McGenEventRegister`
call: whatever rule `rt` the runtime follows to decide the status, the value returned
is the status `rt` gives for the call with provider `&ETWClrProfiler`, the wrapper as
callback, the caller's context and handle `&ETWClrProfilerHandle`, made with the slot
already written; and when the underlying call answers a given code, success or failure,
that code is what comes back. -/
theorem register_returns_underlying_status (rt : RegisterStatus)
    (callback : PENABLECALLBACK) (callBackContext : Ptr) (s : State) (code : HRESULT) :
    (EventRegisterETWClrProfiler rt callback callBackContext s).1 =
      rt Ptr.ETWClrProfiler FnPtr.ETWClrProfiler_WrapperCallback callBackContext
        Ptr.ETWClrProfilerHandle { s with ETWClrProfiler_pCallBack := callback } ∧
    (EventRegisterETWClrProfiler rt callback callBackContext s).1 =
      (McGenEventRegister rt Ptr.ETWClrProfiler FnPtr.ETWClrProfiler_WrapperCallback
        callBackContext Ptr.ETWClrProfilerHandle
        { s with ETWClrProfiler_pCallBack := callback }).1 ∧
    (EventRegisterETWClrProfiler (fun _ _ _ _ _ => code) callback callBackContext s).1 =
      code := by
  exact ⟨rfl, rfl, rfl⟩

/-- C5: after `EventRegisterETWClrProfiler cb ctx` with `cb` non-null, every control
event delivered makes the runtime call the wrapper, which first calls
`McGenControlCallbackV2` and then calls `cb` with the event's six parameters and `ctx`
as context (`chained`).  When `cb` is not the wrapper's own address every event of any
sequence returns and appends exactly these calls; when it is, the first event starts
with the same calls and does not return. -/
theorem registered_events_run_internal_then_user (rt : RegisterStatus)
    (cb : PENABLECALLBACK) (hcb : cb ≠ FnPtr.null) (ctx : Ptr) (s : State) (fuel : Nat)
    (evs : List ControlEvent) :
    controlEvents fuel evs (EventRegisterETWClrProfiler rt cb ctx s).2 =
      if cb = FnPtr.ETWClrProfiler_WrapperCallback then
        match evs with
        | [] => Outcome.returned (EventRegisterETWClrProfiler rt cb ctx s).2
        | e :: _ =>
          Outcome.outOfFuel { (EventRegisterETWClrProfiler rt cb ctx s).2 with
            calls := (EventRegisterETWClrProfiler rt cb ctx s).2.calls ++
              chained fuel cb ctx e }
      else
        Outcome.returned { (EventRegisterETWClrProfiler rt cb ctx s).2 with
          calls := (EventRegisterETWClrProfiler rt cb ctx s).2.calls ++
            chainedAll fuel cb ctx evs } := by
  by_cases hw : cb = FnPtr.ETWClrProfiler_WrapperCallback
  · rw [if_pos hw]
    cases evs with
    | nil => rfl
    | cons e es =>
      have h1 := controlEvent_eq fuel cb hcb ctx e
        (EventRegisterETWClrProfiler rt cb ctx s).2 rfl rfl
      rw [if_pos hw] at h1
      simp only [controlEvents, h1]
  · rw [if_neg hw]
    exact controlEvents_chained fuel cb hcb hw ctx evs _ rfl rfl

theorem registered_events_run_internal_then_user_witness :
    FnPtr.fn 7 ≠ FnPtr.null ∧
    controlEvents 0
        [⟨Ptr.addr 1, 1, 4, 255, 0, Ptr.null⟩, ⟨Ptr.addr 1, 0, 0, 0, 0, Ptr.null⟩]
        (EventRegisterETWClrProfiler (fun _ _ _ _ _ => 0) (FnPtr.fn 7) (Ptr.addr 9)
          State.initial).2 =
      Outcome.returned
        ⟨FnPtr.fn 7, some ⟨FnPtr.ETWClrProfiler_WrapperCallback, Ptr.addr 9⟩,
        [Call.McGenEventRegister Ptr.ETWClrProfiler FnPtr.ETWClrProfiler_WrapperCallback
            (Ptr.addr 9) Ptr.ETWClrProfilerHandle,
         Call.viaPointer FnPtr.ETWClrProfiler_WrapperCallback
            ⟨Ptr.addr 1, 1, 4, 255, 0, Ptr.null, Ptr.addr 9⟩,
         Call.McGenControlCallbackV2
            ⟨Ptr.addr 1, 1, 4, 255, 0, Ptr.null, Ptr.ETWClrProfiler_Context⟩,
         Call.viaPointer (FnPtr.fn 7) ⟨Ptr.addr 1, 1, 4, 255, 0, Ptr.null, Ptr.addr 9⟩,
         Call.viaPointer FnPtr.ETWClrProfiler_WrapperCallback
            ⟨Ptr.addr 1, 0, 0, 0, 0, Ptr.null, Ptr.addr 9⟩,
         Call.McGenControlCallbackV2
            ⟨Ptr.addr 1, 0, 0, 0, 0, Ptr.null, Ptr.ETWClrProfiler_Context⟩,
         Call.viaPointer (FnPtr.fn 7) ⟨Ptr.addr 1, 0, 0, 0, 0, Ptr.null, Ptr.addr 9⟩]⟩ :=
  ⟨by decide,
    registered_events_run_internal_then_user (fun _ _ _ _ _ => 0) (FnPtr.fn 7)
      (by decide) (Ptr.addr 9) State.initial 0
      [⟨Ptr.addr 1, 1, 4, 255, 0, Ptr.null⟩, ⟨Ptr.addr 1, 0, 0, 0, 0, Ptr.null⟩]⟩

/-- C6: for every callback, null or not, `EventRegisterETWClrProfiler` appends exactly
one call to the log, a call to `McGenEventRegister` with provider `&ETWClrProfiler`,
callback `ETWClrProfiler_WrapperCallback`, the caller's context unchanged and handle
`&ETWClrProfilerHandle`; the runtime's record holds the wrapper and that context; the
user's callback is the registered one only if it is the wrapper's own address. -/
theorem register_registers_wrapper_once (rt : RegisterStatus)
    (callback : PENABLECALLBACK) (callBackContext : Ptr) (s : State) :
    (EventRegisterETWClrProfiler rt callback callBackContext s).2.calls =
      s.calls ++ [Call.McGenEventRegister Ptr.ETWClrProfiler
        FnPtr.ETWClrProfiler_WrapperCallback callBackContext Ptr.ETWClrProfilerHandle] ∧
    (EventRegisterETWClrProfiler rt callback callBackContext s).2.registration =
      some ⟨FnPtr.ETWClrProfiler_WrapperCallback, callBackContext⟩ ∧
    (Call.McGenEventRegister Ptr.ETWClrProfiler callback callBackContext
        Ptr.ETWClrProfilerHandle ∈
      (EventRegisterETWClrProfiler rt callback callBackContext s).2.calls.drop
        s.calls.length ↔
      callback = FnPtr.ETWClrProfiler_WrapperCallback) := by
  refine ⟨rfl, rfl, ?_⟩
  rw [register_eq]
  simp [eq_comm]

/-- C7: after `EventRegisterETWClrProfiler c ctx` the slot equals `c`, whatever it held
before and also for `c = NULL`; after any sequence of registrations the slot holds the
callback of the last one; and a wrapper invocation that follows calls
`McGenControlCallbackV2` and then that last callback and no other: no callback at all
when the last registration passed `NULL`, and the last callback again and again,
without returning, when it is the wrapper's own address. -/
theorem slot_holds_last_registered_callback (rt : RegisterStatus) (rs : List Request)
    (r : Request) (s : State) (fuel : Nat) (SourceId : Ptr) (IsEnabled Level
    MatchAnyKeywords MatchAllKeywords : Nat) (FilterData CallbackContext : Ptr) :
    (EventRegisterETWClrProfiler rt r.callback r.callBackContext
        s).2.ETWClrProfiler_pCallBack = r.callback ∧
    (registerAll rt (rs ++ [r]) s).ETWClrProfiler_pCallBack = r.callback ∧
    ETWClrProfiler_WrapperCallback fuel SourceId IsEnabled Level MatchAnyKeywords
        MatchAllKeywords FilterData CallbackContext (registerAll rt (rs ++ [r]) s) =
      (if r.callback = FnPtr.ETWClrProfiler_WrapperCallback
        then Outcome.outOfFuel else Outcome.returned)
      { registerAll rt (rs ++ [r]) s with
        calls := (registerAll rt (rs ++ [r]) s).calls ++
          Call.McGenControlCallbackV2 ⟨SourceId, IsEnabled, Level, MatchAnyKeywords,
              MatchAllKeywords, FilterData, Ptr.ETWClrProfiler_Context⟩ ::
            (if r.callback = FnPtr.null then []
             else Call.viaPointer r.callback
                ⟨SourceId, IsEnabled, Level, MatchAnyKeywords, MatchAllKeywords,
                  FilterData, CallbackContext⟩ ::
               (if r.callback = FnPtr.ETWClrProfiler_WrapperCallback then
                  repeatCalls fuel
                    [Call.McGenControlCallbackV2 ⟨SourceId, IsEnabled, Level,
                        MatchAnyKeywords, MatchAllKeywords, FilterData,
                        Ptr.ETWClrProfiler_Context⟩,
                     Call.viaPointer r.callback
                      ⟨SourceId, IsEnabled, Level, MatchAnyKeywords, MatchAllKeywords,
                        FilterData, CallbackContext⟩]
                else [])) } := by
  have hslot : (registerAll rt (rs ++ [r]) s).ETWClrProfiler_pCallBack = r.callback := by
    rw [registerAll_append]
    rfl
  refine ⟨rfl, hslot, ?_⟩
  rw [wrapper_eq]
  simp only [hslot]

example : (registerAll (fun _ _ _ _ _ => 0) [⟨FnPtr.fn 7, Ptr.addr 9⟩,
    ⟨FnPtr.fn 8, Ptr.null⟩, ⟨FnPtr.null, Ptr.null⟩]
    State.initial).ETWClrProfiler_pCallBack = FnPtr.null := by
  decide

end EtwClrProfiler
